import Mathlib

/-!
Shallow embedding of the odxproxy-mcpserver glossary-enrichment layer
(src/glossary.ts) and of the MCP server's tool and resource handlers
(src/server.ts), together with theorems about the published behaviour.

Remote calls (the odxproxy client's `fields_get`) are modelled by an
oracle `fetch : String → Except Unit (Option FieldMap)`: a promise that
either resolves to `{result?: FieldMap}` (the `result` payload may be
absent) or rejects.
-/

namespace OdxProxy

/-- Where field metadata comes from: fetched via `fields_get` (dynamic)
or predefined in the glossary entry (static). -/
inductive FieldsSource
  | dynamic
  | static
deriving DecidableEq, Repr

/-- `Record<string, any>` field metadata, modelled as an association
list with opaque string payloads. -/
abbrev FieldMap := List (String × String)

/-- One glossary entry (interface GlossaryEntry, src/glossary.ts).
Optional scalar members are `Option`; optional list members are
modelled as plain lists (absent = empty). -/
structure GlossaryEntry where
  model : String
  aliases : List String := []
  category : Option String := none
  description : Option String := none
  extra_description : Option String := none
  available_actions : List String := []
  model_specific_actions : List (String × String) := []
  aliases_many2one_fields : List String := []
  fields_source : Option FieldsSource := none
  fields : Option FieldMap := none
  examples : List String := []
  hints : List String := []
deriving DecidableEq, Repr

/-- The `fields_get` remote call, as an oracle: resolves with an
optional result payload, or rejects. The call context is the fixed
constant `{context: {tz: "UTC"}}` in the source, so it is not a
parameter of the oracle. -/
abbrev FieldsGet := String → Except Unit (Option FieldMap)

/-- The body of one iteration of the `loadGlossary` loop
(src/glossary.ts lines 170-177): for a dynamic entry, fetch the field
map and set `entry.fields = res.result ?? {}`; a rejected fetch is
caught and only logged, leaving the entry as it was; non-dynamic
entries pass through untouched. -/
def enrichEntry (fetch : FieldsGet) (e : GlossaryEntry) : GlossaryEntry :=
  if e.fields_source = some FieldsSource.dynamic then
    match fetch e.model with
    | Except.ok res => { e with fields := some (res.getD []) }
    | Except.error _ => e
  else e

/-- `loadGlossary` (src/glossary.ts lines 168-180): enrich every entry
in order and return the (mutated) glossary. -/
def loadGlossary (fetch : FieldsGet) (glossary : List GlossaryEntry) :
    List GlossaryEntry :=
  glossary.map (enrichEntry fetch)

/-- The `console.error` diagnostic text emitted at src/glossary.ts
line 175 for a failed fetch. -/
def diagMsg (model : String) : String :=
  "Error fetching fields for model " ++ model

/-- The diagnostics `loadGlossary` emits, in loop order: one
`console.error` per dynamic entry whose fetch rejects. -/
def loadGlossaryDiagnostics (fetch : FieldsGet)
    (glossary : List GlossaryEntry) : List String :=
  glossary.filterMap (fun e =>
    if e.fields_source = some FieldsSource.dynamic then
      match fetch e.model with
      | Except.ok _ => none
      | Except.error _ => some (diagMsg e.model)
    else none)

/-- The models for which `loadGlossary` issues a `fields_get` call, in
loop order: exactly the entries with `fields_source = "dynamic"`. -/
def fetchCalls (glossary : List GlossaryEntry) : List String :=
  (glossary.filter
    (fun e => e.fields_source == some FieldsSource.dynamic)).map
    (fun e => e.model)

/-! JSON serialization helpers, mirroring the `JSON.stringify` calls of
src/server.ts on the concrete object shapes used there. -/

/-- Escape one character for a JSON string literal. -/
def jsonEscapeChar (c : Char) : String :=
  if c = '"' then "\\\"" else if c = '\\' then "\\\\" else String.singleton c

/-- Escape a string for a JSON string literal. -/
def jsonEscape (s : String) : String :=
  String.join (s.data.map jsonEscapeChar)

/-- A JSON string literal. -/
def jsonStr (s : String) : String := "\"" ++ jsonEscape s ++ "\""

/-- A JSON array of string literals. -/
def jsonStrList (l : List String) : String :=
  "[" ++ String.intercalate ", " (l.map jsonStr) ++ "]"

/-- A JSON object from an association list of string payloads. -/
def jsonPairs (l : List (String × String)) : String :=
  "\x7b" ++
    String.intercalate ", "
      (l.map (fun p => jsonStr p.1 ++ ": " ++ jsonStr p.2)) ++
  "\x7d"

/-- One rendered `key: value` member when an optional string member is
present; `JSON.stringify` omits `undefined` members. -/
def optMember (key : String) : Option String → List String
  | some s => [jsonStr key ++ ": " ++ jsonStr s]
  | none => []

/-- The glossary-entry payload the resource callback serves:
`JSON.stringify(entry, ...)` at src/server.ts line 114, on the
modelled entry shape (absent optional members are omitted). -/
def entryJson (e : GlossaryEntry) : String :=
  "\x7b" ++
    String.intercalate ", "
      ([jsonStr "model" ++ ": " ++ jsonStr e.model]
        ++ [jsonStr "aliases" ++ ": " ++ jsonStrList e.aliases]
        ++ optMember "category" e.category
        ++ optMember "description" e.description
        ++ optMember "extra_description" e.extra_description
        ++ [jsonStr "available_actions" ++ ": "
              ++ jsonStrList e.available_actions]
        ++ [jsonStr "model_specific_actions" ++ ": "
              ++ jsonPairs e.model_specific_actions]
        ++ [jsonStr "aliases_many2one_fields" ++ ": "
              ++ jsonStrList e.aliases_many2one_fields]
        ++ (match e.fields_source with
            | some FieldsSource.dynamic =>
                [jsonStr "fields_source" ++ ": " ++ jsonStr "dynamic"]
            | some FieldsSource.static =>
                [jsonStr "fields_source" ++ ": " ++ jsonStr "static"]
            | none => [])
        ++ (match e.fields with
            | some m => [jsonStr "fields" ++ ": " ++ jsonPairs m]
            | none => [])
        ++ [jsonStr "examples" ++ ": " ++ jsonStrList e.examples]
        ++ [jsonStr "hints" ++ ": " ++ jsonStrList e.hints]) ++
  "\x7d"

/-! The resource publisher (`OdxMCPServer.loadGlossaries`,
src/server.ts lines 95-118). -/

/-- One registered resource: registration name, URI, descriptor and the
content the callback produces. -/
structure ResourceRegistration where
  name : String
  uri : String
  title : String
  description : String
  tags : List String
  examples : List String
  contentMimeType : String
  contentText : String
deriving DecidableEq, Repr

/-- The single `registerResource` call made for one enriched entry
(src/server.ts lines 101-116). -/
def registerGlossaryResource (entry : GlossaryEntry) : ResourceRegistration :=
  { name := "glossary_" ++ entry.model
    uri := "glossary://" ++ entry.model
    title := entry.model ++ " Glossary"
    description := entry.description.getD ""
    tags := (entry.category.getD "odoo") :: entry.aliases
    examples := entry.examples
    contentMimeType := "application/json"
    contentText := entryJson entry }

/-- `OdxMCPServer.loadGlossaries` (src/server.ts lines 95-118): enrich
the catalog with `loadGlossary`, then register one resource per
enriched entry, in order. -/
def loadGlossaries (fetch : FieldsGet) (glossary : List GlossaryEntry) :
    List ResourceRegistration :=
  (loadGlossary fetch glossary).map registerGlossaryResource

/-! Tool handlers (src/server.ts). Filter domains are sequences of
`[field, operator, value]` triples and the prefix operator `"|"`. -/

/-- A JSON scalar appearing in a filter triple. -/
inductive JsonValue
  | str (s : String)
  | num (n : Int)
deriving DecidableEq, Repr

/-- One element of an Odoo domain filter: a `[field, op, value]`
condition or the prefix disjunction operator `"|"`. -/
inductive DomainTerm
  | cond (field op : String) (value : JsonValue)
  | orOp
deriving DecidableEq, Repr

/-- What a tool handler does: answer directly with a text payload and
issue no remote call, or issue one `search_read(model, domain,
{context: {tz}})` query. -/
inductive HandlerAction
  | respond (text : String)
  | searchRead (model : String) (domain : List DomainTerm) (tz : String)
deriving DecidableEq, Repr

/-- JavaScript `String.prototype.toLowerCase()`, modelled per
character. -/
def jsToLowerCase (s : String) : String := String.mk (s.data.map Char.toLower)

/-- JavaScript truthiness of an optional number input (`if (id)`):
`undefined` and `0` are falsy. -/
def truthyNum : Option Int → Bool
  | some n => n != 0
  | none => false

/-- JavaScript truthiness of an optional string input
(`if (name)`): `undefined` and `""` are falsy. -/
def truthyStr : Option String → Bool
  | some s => s != ""
  | none => false

/-- The `get_partners` handler's dispatch (src/server.ts lines
179-213): `id` truthy wins; else truthy `email` and `name` give the
`"|"` disjunction with the email lowercased; else whichever of the two
is truthy alone; else answer `"[]"` without querying. -/
def getPartnersAction (id : Option Int) (email name : Option String) :
    HandlerAction :=
  if truthyNum id then
    HandlerAction.searchRead "res.partner"
      [DomainTerm.cond "id" "=" (JsonValue.num (id.getD 0))]
      "Asia/Singapore"
  else if truthyStr email && truthyStr name then
    HandlerAction.searchRead "res.partner"
      [DomainTerm.orOp,
        DomainTerm.cond "email" "=" (JsonValue.str (jsToLowerCase (email.getD ""))),
        DomainTerm.cond "name" "ilike" (JsonValue.str (name.getD ""))]
      "Asia/Singapore"
  else if truthyStr email then
    HandlerAction.searchRead "res.partner"
      [DomainTerm.cond "email" "=" (JsonValue.str (jsToLowerCase (email.getD "")))]
      "Asia/Singapore"
  else if truthyStr name then
    HandlerAction.searchRead "res.partner"
      [DomainTerm.cond "name" "ilike" (JsonValue.str (name.getD ""))]
      "Asia/Singapore"
  else
    HandlerAction.respond "[]"

/-- The domain the `get_companies` handler pushes (src/server.ts lines
141-148): a name condition when `name` is truthy, then an id condition
when `id` is truthy. -/
def getCompaniesDomain (name : Option String) (id : Option Int) :
    List DomainTerm :=
  (if truthyStr name then
    [DomainTerm.cond "name" "ilike" (JsonValue.str (name.getD ""))]
  else []) ++
  (if truthyNum id then
    [DomainTerm.cond "id" "=" (JsonValue.num (id.getD 0))]
  else [])

/-- The `get_companies` handler always issues one query over
`res.company` with the built domain (src/server.ts line 149). -/
def getCompaniesAction (name : Option String) (id : Option Int) :
    HandlerAction :=
  HandlerAction.searchRead "res.company" (getCompaniesDomain name id)
    "Asia/Singapore"

/-! Configuration and the `odx_config` tool (src/server.ts). -/

/-- `OdxInstanceInfo` (src/server.ts lines 18-23). -/
structure OdxInstanceInfo where
  url : String
  user_id : Int
  db : String
  api_key : String
deriving DecidableEq, Repr

/-- `OdxProxyClientInfo` (src/server.ts lines 25-29). -/
structure OdxProxyClientInfo where
  «instance» : OdxInstanceInfo
  odx_api_key : String
  gateway_url : Option String := none
deriving DecidableEq, Repr

/-- The settings object the `odx_config` handler builds (src/server.ts
lines 59-64). -/
structure OdxConfigSettings where
  url : String
  database : String
  gateway : Option String
  userUid : Int
deriving DecidableEq, Repr

/-- `odx_config` handler, settings construction (src/server.ts lines
59-64). -/
def odxConfigSettings (c : OdxProxyClientInfo) : OdxConfigSettings :=
  { url := c.«instance».url
    database := c.«instance».db
    gateway := c.gateway_url
    userUid := c.«instance».user_id }

/-- The text content the `odx_config` tool returns:
`JSON.stringify(settings, null, 2)` (src/server.ts line 69); a
`gateway` member that is `undefined` is omitted by `JSON.stringify`. -/
def odxConfigText (c : OdxProxyClientInfo) : String :=
  let s := odxConfigSettings c
  "\x7b\n  " ++ jsonStr "url" ++ ": " ++ jsonStr s.url ++ ",\n  "
    ++ jsonStr "database" ++ ": " ++ jsonStr s.database
    ++ (match s.gateway with
        | some g => ",\n  " ++ jsonStr "gateway" ++ ": " ++ jsonStr g
        | none => "")
    ++ ",\n  " ++ jsonStr "userUid" ++ ": " ++ toString s.userUid
    ++ "\n\x7d"

/-! Concrete fixtures used by counterexamples and witnesses. -/

/-- A `fields_get` oracle that always rejects. -/
def cexFetch : FieldsGet := fun _ => Except.error ()

/-- A dynamic entry with no predefined `fields`. -/
def cexEntry : GlossaryEntry :=
  { model := "res.partner", fields_source := some FieldsSource.dynamic }

/-- A `fields_get` oracle that rejects exactly for `res.partner` and
resolves with a one-field map for every other model. -/
def wFetch : FieldsGet := fun m =>
  if m = "res.partner" then Except.error ()
  else Except.ok (some [(m, "ok")])

/-- Dynamic entry whose fetch under `wFetch` succeeds. -/
def wA : GlossaryEntry :=
  { model := "res.company", fields_source := some FieldsSource.dynamic }

/-- Dynamic entry whose fetch under `wFetch` rejects. -/
def wM : GlossaryEntry :=
  { model := "res.partner", fields_source := some FieldsSource.dynamic }

/-- Another dynamic entry whose fetch under `wFetch` succeeds. -/
def wB : GlossaryEntry :=
  { model := "res.users", fields_source := some FieldsSource.dynamic }

/-- A static entry with predefined fields. -/
def wStatic : GlossaryEntry :=
  { model := "res.currency", fields_source := some FieldsSource.static,
    fields := some [("name", "char")] }

/-- A concrete client configuration. -/
def wConf1 : OdxProxyClientInfo :=
  { «instance» :=
      { url := "https://odoo.example.com", user_id := 2,
        db := "proddb", api_key := "secret-key-one" },
    odx_api_key := "odx-secret-one",
    gateway_url := some "https://gateway.odxproxy.io" }

/-- The same configuration with both secrets replaced. -/
def wConf2 : OdxProxyClientInfo :=
  { «instance» :=
      { url := "https://odoo.example.com", user_id := 2,
        db := "proddb", api_key := "secret-key-two" },
    odx_api_key := "odx-secret-two",
    gateway_url := some "https://gateway.odxproxy.io" }

/-! Helper lemmas. -/

/-- Enrichment never touches the `model` member. -/
theorem enrichEntry_model (fetch : FieldsGet) (e : GlossaryEntry) :
    (enrichEntry fetch e).model = e.model := by
  unfold enrichEntry
  split
  · cases h : fetch e.model <;> simp
  · rfl

/-- Enrichment preserves the sequence of `model` identifiers. -/
theorem loadGlossary_map_model (fetch : FieldsGet)
    (glossary : List GlossaryEntry) :
    (loadGlossary fetch glossary).map (fun e => e.model) =
      glossary.map (fun e => e.model) := by
  unfold loadGlossary
  rw [List.map_map]
  exact List.map_congr_left (fun e _ => enrichEntry_model fetch e)

/-- Prepending a fixed string is injective. -/
theorem string_append_left_injective (p : String) :
    Function.Injective (fun s => p ++ s) := by
  intro a b h
  have h2 : (p ++ a).data = (p ++ b).data := congrArg String.data h
  rw [String.data_append, String.data_append] at h2
  exact String.ext (List.append_cancel_left h2)

/-- A non-dynamic entry is returned by `enrichEntry` unchanged. -/
theorem enrichEntry_not_dynamic (fetch : FieldsGet) (e : GlossaryEntry)
    (h : e.fields_source ≠ some FieldsSource.dynamic) :
    enrichEntry fetch e = e := by
  unfold enrichEntry
  exact if_neg h

/-- An entry whose fetch rejects is returned by `enrichEntry`
unchanged. -/
theorem enrichEntry_failed_fetch (fetch : FieldsGet) (e : GlossaryEntry)
    (h : fetch e.model = Except.error ()) :
    enrichEntry fetch e = e := by
  unfold enrichEntry
  split
  · rw [h]
  · rfl

/-! Claim theorems. -/

/-- Claim C1, counterexample. The claim says a dynamic entry whose
`fields_get` call rejects ends up with `fields` an empty mapping, never
absent. On the code the catch block at src/glossary.ts line 174 only
logs: for the dynamic entry `cexEntry`, whose `fields` is absent and
whose fetch rejects, `fields` is still absent (and not the empty
mapping) after `loadGlossary`. -/
theorem failed_fetch_fields_not_emptied_cex :
    (loadGlossary cexFetch [cexEntry]).map (fun e => e.fields) = [none] ∧
    (loadGlossary cexFetch [cexEntry]).map (fun e => e.fields) ≠ [some []] := by
  constructor
  · rfl
  · decide

/-- Claim C1, amended: a dynamic entry whose `fields_get` call rejects
is left entirely unchanged by `loadGlossary` — `fields` keeps whatever
value it had before the call, and in particular may remain absent. -/
theorem failed_fetch_leaves_entry_unchanged (fetch : FieldsGet)
    (glossary : List GlossaryEntry) (i : Nat) (hi : i < glossary.length)
    (_hdyn : glossary[i].fields_source = some FieldsSource.dynamic)
    (hfail : fetch glossary[i].model = Except.error ()) :
    (loadGlossary fetch glossary)[i]? = some glossary[i] := by
  unfold loadGlossary
  rw [List.getElem?_map, List.getElem?_eq_getElem hi]
  simp only [Option.map_some']
  rw [enrichEntry_failed_fetch fetch _ hfail]

/-- Witness for the amended claim C1 at the concrete catalog
`[cexEntry]` under the always-rejecting oracle. -/
theorem failed_fetch_leaves_entry_unchanged_witness :
    cexEntry.fields_source = some FieldsSource.dynamic ∧
    cexFetch cexEntry.model = Except.error () ∧
    (loadGlossary cexFetch [cexEntry])[0]? = some cexEntry :=
  ⟨by decide, rfl,
    failed_fetch_leaves_entry_unchanged cexFetch [cexEntry] 0 (by decide)
      (by decide) rfl⟩

/-- Claim C2: one rejecting fetch aborts nothing. If entry `i` is
dynamic and its fetch rejects, `loadGlossary` still returns a catalog
of the same length (the call resolves, having visited every entry), the
`console.error` diagnostic for entry `i`'s model is recorded, and every
other dynamic entry `j` whose fetch resolves still receives its own
fetched result. -/
theorem loadGlossary_failure_isolation (fetch : FieldsGet)
    (glossary : List GlossaryEntry) (i j : Nat)
    (hi : i < glossary.length) (hj : j < glossary.length)
    (hdyni : glossary[i].fields_source = some FieldsSource.dynamic)
    (hfail : fetch glossary[i].model = Except.error ())
    (_hne : j ≠ i)
    (hdynj : glossary[j].fields_source = some FieldsSource.dynamic)
    (r : Option FieldMap)
    (hok : fetch glossary[j].model = Except.ok r) :
    (loadGlossary fetch glossary).length = glossary.length ∧
    diagMsg glossary[i].model ∈ loadGlossaryDiagnostics fetch glossary ∧
    (loadGlossary fetch glossary)[j]? =
      some { glossary[j] with fields := some (r.getD []) } := by
  refine ⟨by simp [loadGlossary], ?_, ?_⟩
  · rw [loadGlossaryDiagnostics, List.mem_filterMap]
    refine ⟨glossary[i], List.getElem_mem hi, ?_⟩
    rw [if_pos hdyni, hfail]
  · unfold loadGlossary
    rw [List.getElem?_map, List.getElem?_eq_getElem hj]
    simp only [Option.map_some']
    unfold enrichEntry
    rw [if_pos hdynj, hok]

/-- Witness for claim C2 on the catalog `[wA, wM, wB]` where `wM`'s
fetch rejects and `wB`'s fetch resolves. -/
theorem loadGlossary_failure_isolation_witness :
    wM.fields_source = some FieldsSource.dynamic ∧
    wFetch wM.model = Except.error () ∧
    wB.fields_source = some FieldsSource.dynamic ∧
    wFetch wB.model = Except.ok (some [("res.users", "ok")]) ∧
    ((loadGlossary wFetch [wA, wM, wB]).length = 3 ∧
      diagMsg wM.model ∈ loadGlossaryDiagnostics wFetch [wA, wM, wB] ∧
      (loadGlossary wFetch [wA, wM, wB])[2]? =
        some { wB with fields := some [("res.users", "ok")] }) :=
  ⟨by decide, rfl, by decide, rfl,
    loadGlossary_failure_isolation wFetch [wA, wM, wB] 1 2 (by decide)
      (by decide) (by decide) rfl (by decide) (by decide)
      (some [("res.users", "ok")]) rfl⟩

/-- Claim C3: `loadGlossary` returns a sequence of the same length as
its input, with every `model` identifier preserved and the entries in
the input order. -/
theorem loadGlossary_length_and_models (fetch : FieldsGet)
    (glossary : List GlossaryEntry) :
    (loadGlossary fetch glossary).length = glossary.length ∧
    (loadGlossary fetch glossary).map (fun e => e.model) =
      glossary.map (fun e => e.model) :=
  ⟨by simp [loadGlossary], loadGlossary_map_model fetch glossary⟩

/-- Claim C4: a non-dynamic entry passes through `loadGlossary`
entirely unchanged, in place, and contributes no `fields_get` call:
the call trace of a catalog containing it equals the call trace of the
catalog with the entry removed. -/
theorem loadGlossary_static_passthrough (fetch : FieldsGet)
    (pre post : List GlossaryEntry) (e : GlossaryEntry)
    (h : e.fields_source ≠ some FieldsSource.dynamic) :
    loadGlossary fetch (pre ++ e :: post) =
      loadGlossary fetch pre ++ e :: loadGlossary fetch post ∧
    fetchCalls (pre ++ e :: post) = fetchCalls (pre ++ post) := by
  have hb : (e.fields_source == some FieldsSource.dynamic) = false :=
    beq_eq_false_iff_ne.mpr h
  constructor
  · unfold loadGlossary
    rw [List.map_append, List.map_cons, enrichEntry_not_dynamic fetch e h]
  · unfold fetchCalls
    rw [List.filter_append, List.filter_append, List.filter_cons, hb]
    simp

/-- Witness for claim C4: the static entry `wStatic`, placed between
`wA` and `wB`, passes through untouched and adds no fetch call. -/
theorem loadGlossary_static_passthrough_witness :
    wStatic.fields_source ≠ some FieldsSource.dynamic ∧
    (loadGlossary wFetch ([wA] ++ wStatic :: [wB]) =
      loadGlossary wFetch [wA] ++ wStatic :: loadGlossary wFetch [wB] ∧
    fetchCalls ([wA] ++ wStatic :: [wB]) = fetchCalls ([wA] ++ [wB])) :=
  ⟨by decide,
    loadGlossary_static_passthrough wFetch [wA] [wB] wStatic (by decide)⟩

/-- Claim C5: `loadGlossaries` registers exactly one resource per
catalog entry, in order — also for entries whose enrichment failed —
under the name `glossary_<model>` and the URI `glossary://<model>`;
when the catalog's models are distinct the URIs are distinct. -/
theorem loadGlossaries_resource_totality (fetch : FieldsGet)
    (glossary : List GlossaryEntry)
    (hnd : (glossary.map (fun e => e.model)).Nodup) :
    (loadGlossaries fetch glossary).length = glossary.length ∧
    (loadGlossaries fetch glossary).map (fun r => r.name) =
      glossary.map (fun e => "glossary_" ++ e.model) ∧
    (loadGlossaries fetch glossary).map (fun r => r.uri) =
      glossary.map (fun e => "glossary://" ++ e.model) ∧
    ((loadGlossaries fetch glossary).map (fun r => r.uri)).Nodup := by
  have hmodels := loadGlossary_map_model fetch glossary
  have hname : (loadGlossaries fetch glossary).map (fun r => r.name) =
      glossary.map (fun e => "glossary_" ++ e.model) := by
    calc (loadGlossaries fetch glossary).map (fun r => r.name)
        = ((loadGlossary fetch glossary).map (fun e => e.model)).map
            (fun m => "glossary_" ++ m) := by
          unfold loadGlossaries
          rw [List.map_map, List.map_map]
          rfl
      _ = (glossary.map (fun e => e.model)).map
            (fun m => "glossary_" ++ m) := by rw [hmodels]
      _ = glossary.map (fun e => "glossary_" ++ e.model) := by
          rw [List.map_map]
          rfl
  have huri : (loadGlossaries fetch glossary).map (fun r => r.uri) =
      (glossary.map (fun e => e.model)).map (fun m => "glossary://" ++ m) := by
    calc (loadGlossaries fetch glossary).map (fun r => r.uri)
        = ((loadGlossary fetch glossary).map (fun e => e.model)).map
            (fun m => "glossary://" ++ m) := by
          unfold loadGlossaries
          rw [List.map_map, List.map_map]
          rfl
      _ = (glossary.map (fun e => e.model)).map
            (fun m => "glossary://" ++ m) := by rw [hmodels]
  refine ⟨by simp [loadGlossaries, loadGlossary], hname, ?_, ?_⟩
  · rw [huri, List.map_map]
    rfl
  · rw [huri]
    exact List.Nodup.map (string_append_left_injective "glossary://") hnd

/-- Witness for claim C5 on the three-model catalog `[wA, wM, wB]`,
whose models are pairwise distinct (with `wM`'s enrichment failing
under `wFetch`). -/
theorem loadGlossaries_resource_totality_witness :
    (([wA, wM, wB].map (fun e => e.model)).Nodup) ∧
    ((loadGlossaries wFetch [wA, wM, wB]).length = 3 ∧
      (loadGlossaries wFetch [wA, wM, wB]).map (fun r => r.name) =
        [wA, wM, wB].map (fun e => "glossary_" ++ e.model) ∧
      (loadGlossaries wFetch [wA, wM, wB]).map (fun r => r.uri) =
        [wA, wM, wB].map (fun e => "glossary://" ++ e.model) ∧
      ((loadGlossaries wFetch [wA, wM, wB]).map (fun r => r.uri)).Nodup) :=
  ⟨by decide,
    loadGlossaries_resource_totality wFetch [wA, wM, wB] (by decide)⟩

/-- Claim C6: in `get_partners`, a provided (truthy, i.e. non-zero)
`id` takes precedence over every other input — the issued query filter
is exactly `[["id", "=", id]]`, with any email and name inputs
ignored. -/
theorem getPartners_id_precedence (n : Int) (hn : n ≠ 0)
    (email name : Option String) :
    getPartnersAction (some n) email name =
      HandlerAction.searchRead "res.partner"
        [DomainTerm.cond "id" "=" (JsonValue.num n)] "Asia/Singapore" := by
  simp [getPartnersAction, truthyNum, hn]

/-- Witness for claim C6 at the input `{id: 7, email: "x@y.com",
name: "x"}`. -/
theorem getPartners_id_precedence_witness :
    (7 : Int) ≠ 0 ∧
    getPartnersAction (some 7) (some "x@y.com") (some "x") =
      HandlerAction.searchRead "res.partner"
        [DomainTerm.cond "id" "=" (JsonValue.num 7)] "Asia/Singapore" :=
  ⟨by decide, getPartners_id_precedence 7 (by decide)
    (some "x@y.com") (some "x")⟩

/-- Claim C7: in `get_partners`, with no `id` and both `email` and
`name` provided (truthy, i.e. non-empty), the filter is the prefix
disjunction of an exact match on the lowercased email and a
case-insensitive partial match on the name. -/
theorem getPartners_email_name_disjunction (e n : String)
    (he : e ≠ "") (hn : n ≠ "") :
    getPartnersAction none (some e) (some n) =
      HandlerAction.searchRead "res.partner"
        [DomainTerm.orOp,
          DomainTerm.cond "email" "=" (JsonValue.str (jsToLowerCase e)),
          DomainTerm.cond "name" "ilike" (JsonValue.str n)]
        "Asia/Singapore" := by
  simp [getPartnersAction, truthyNum, truthyStr, he, hn]

/-- Witness for claim C7 at the input `{email: "a@b.com",
name: "Acme"}`. -/
theorem getPartners_email_name_disjunction_witness :
    ("a@b.com" : String) ≠ "" ∧ ("Acme" : String) ≠ "" ∧
    getPartnersAction none (some "a@b.com") (some "Acme") =
      HandlerAction.searchRead "res.partner"
        [DomainTerm.orOp,
          DomainTerm.cond "email" "=" (JsonValue.str "a@b.com"),
          DomainTerm.cond "name" "ilike" (JsonValue.str "Acme")]
        "Asia/Singapore" :=
  ⟨by decide, by decide, by
    have h := getPartners_email_name_disjunction "a@b.com" "Acme"
      (by decide) (by decide)
    have ht : jsToLowerCase "a@b.com" = "a@b.com" := by decide
    rw [ht] at h
    exact h⟩

/-- Claim C8: in `get_partners`, with no `id`, `email` or `name` the
handler answers the literal text `"[]"` directly and issues no remote
query at all. -/
theorem getPartners_empty_input :
    getPartnersAction none none none = HandlerAction.respond "[]" := rfl

/-- Claim C9: the `odx_config` tool's output depends only on the four
settings `{url, database, gateway, userUid}` — two configurations that
agree on those (and may differ arbitrarily in `instance.api_key` and
`odx_api_key`) produce identical output — and the settings object is
exactly those four fields of the configuration. -/
theorem odxConfig_no_secret_dependence (c1 c2 : OdxProxyClientInfo)
    (hurl : c1.«instance».url = c2.«instance».url)
    (hdb : c1.«instance».db = c2.«instance».db)
    (hgw : c1.gateway_url = c2.gateway_url)
    (huid : c1.«instance».user_id = c2.«instance».user_id) :
    odxConfigSettings c1 =
      { url := c1.«instance».url, database := c1.«instance».db,
        gateway := c1.gateway_url, userUid := c1.«instance».user_id } ∧
    odxConfigSettings c1 = odxConfigSettings c2 ∧
    odxConfigText c1 = odxConfigText c2 := by
  have hs : odxConfigSettings c1 = odxConfigSettings c2 := by
    simp [odxConfigSettings, hurl, hdb, hgw, huid]
  exact ⟨rfl, hs, by rw [odxConfigText, odxConfigText, hs]⟩

/-- Witness for claim C9: two configurations identical except in the
Odoo API key and the ODXProxy API key yield the same `odx_config`
output. -/
theorem odxConfig_no_secret_dependence_witness :
    wConf1.«instance».url = wConf2.«instance».url ∧
    wConf1.«instance».db = wConf2.«instance».db ∧
    wConf1.gateway_url = wConf2.gateway_url ∧
    wConf1.«instance».user_id = wConf2.«instance».user_id ∧
    wConf1.«instance».api_key ≠ wConf2.«instance».api_key ∧
    wConf1.odx_api_key ≠ wConf2.odx_api_key ∧
    (odxConfigSettings wConf1 =
      { url := wConf1.«instance».url, database := wConf1.«instance».db,
        gateway := wConf1.gateway_url,
        userUid := wConf1.«instance».user_id } ∧
    odxConfigSettings wConf1 = odxConfigSettings wConf2 ∧
    odxConfigText wConf1 = odxConfigText wConf2) :=
  ⟨rfl, rfl, rfl, rfl, by decide, by decide,
    odxConfig_no_secret_dependence wConf1 wConf2 rfl rfl rfl rfl⟩

/-- Claim C10: falsy inputs are treated as absent at the tool surface.
In `get_partners` an `id` of `0` behaves exactly like an absent `id`
(in particular, alone it yields the direct `"[]"` answer with no
query), and an empty-string `email` or `name` behaves exactly like an
absent one; in `get_companies` an empty `name` and a zero `id` add no
filter term, leaving the return-all query over `res.company`. -/
theorem falsy_inputs_treated_absent :
    (∀ (email name : Option String),
      getPartnersAction (some 0) email name =
        getPartnersAction none email name) ∧
    getPartnersAction (some 0) none none = HandlerAction.respond "[]" ∧
    (∀ (id : Option Int) (name : Option String),
      getPartnersAction id (some "") name =
        getPartnersAction id none name) ∧
    (∀ (id : Option Int) (email : Option String),
      getPartnersAction id email (some "") =
        getPartnersAction id email none) ∧
    getCompaniesDomain (some "") (some 0) = [] ∧
    getCompaniesAction (some "") (some 0) =
      HandlerAction.searchRead "res.company" [] "Asia/Singapore" := by
  refine ⟨fun email name => rfl, rfl, ?_, ?_, rfl, rfl⟩
  · intro id name
    simp [getPartnersAction, truthyStr]
  · intro id email
    simp [getPartnersAction, truthyStr]

end OdxProxy
